import Mathlib

/-!
# Verification of the OracleMarket on-chain settlement core

Shallow embedding of the Move modules `oracle_marketplace::oracle_marketplace`,
`oracle_marketplace::marketplace_treasury` and `oracle_marketplace::oracle_core`
(files `contract/sources/oracle_marketplace.move`,
`contract/sources/marketplace_treasury.move`).

Modelling conventions:
- Move `address` and object `ID` become `Nat`.
- Move `u64` values become `Nat`; every arithmetic operation that can abort on
  overflow/underflow in Move (`+`, `*`, `-` on u64) goes through the checked
  operations `u64Add`, `u64Mul`, `u64Sub`, which return
  `Except MoveError Nat` and fail with `.arithmeticOverflow` exactly when the
  Move VM would abort.
- Every Move `entry`/`public` function that can `assert!`-abort becomes a
  function into `Except MoveError _`.  A `.error` result models a Move abort:
  the host ledger discards all effects, so the pre-state persists (made
  explicit by the `commit`-style helpers below).
- `Coin<SUI>` / `Balance<SUI>` values are represented by their `u64` value.
- A `transfer::public_transfer` of funds or an object is represented by
  returning the recipient address together with the transferred value.
- `sui::dynamic_field` storage on the collateral pool is an association list
  from service id to balance value.
- Fresh object ids (`object::new`) and timestamps (`epoch_timestamp_ms`,
  `clock::timestamp_ms`) are explicit parameters.
-/

namespace OracleMarket

/-- Abort kinds of the three Move modules.  Each constructor corresponds to a
Move abort code constant (or, for `arithmeticOverflow`, to a VM arithmetic
abort).  Where two modules declare the same kind (`E_NOT_PROVIDER` exists in
all three), one constructor stands for the kind. -/
inductive MoveError where
  | serviceInactive        -- E_SERVICE_INACTIVE
  | insufficientPayment    -- E_INSUFFICIENT_PAYMENT
  | insufficientCollateral -- E_INSUFFICIENT_COLLATERAL
  | notProvider            -- E_NOT_PROVIDER (marketplace / treasury / core)
  | subscriptionExpired    -- E_SUBSCRIPTION_EXPIRED
  | invalidPrice           -- E_INVALID_PRICE
  | queryNotResolved       -- E_QUERY_NOT_RESOLVED
  | subscriptionMismatch   -- E_SUBSCRIPTION_NOT_MATCH
  | insufficientBalance    -- E_INSUFFICIENT_BALANCE (treasury)
  | collateralNotFound     -- E_COLLATERAL_NOT_FOUND (treasury)
  | alreadyResolved        -- E_QUERY_ALREADY_RESOLVED (oracle_core)
  | notAdmin               -- E_NOT_ADMIN (treasury)
  | arithmeticOverflow     -- Move VM abort on u64 overflow/underflow
deriving DecidableEq, Repr

/-- Largest `u64` value. -/
def U64_MAX : Nat := 2 ^ 64 - 1

/-- Move u64 addition: aborts when the sum exceeds `U64_MAX`. -/
def u64Add (a b : Nat) : Except MoveError Nat :=
  if a + b ≤ U64_MAX then .ok (a + b) else .error .arithmeticOverflow

/-- Move u64 multiplication: aborts when the product exceeds `U64_MAX`. -/
def u64Mul (a b : Nat) : Except MoveError Nat :=
  if a * b ≤ U64_MAX then .ok (a * b) else .error .arithmeticOverflow

/-- Move u64 subtraction: aborts on underflow. -/
def u64Sub (a b : Nat) : Except MoveError Nat :=
  if b ≤ a then .ok (a - b) else .error .arithmeticOverflow

/-- `PLATFORM_FEE_BPS` from oracle_marketplace.move (300 = 3%). -/
def PLATFORM_FEE_BPS : Nat := 300

/-- `MIN_COLLATERAL` from oracle_marketplace.move (10,000,000 MIST). -/
def MIN_COLLATERAL : Nat := 10000000

/-- `DEFAULT_SUBSCRIPTION_DURATION` from oracle_marketplace.move
(30 days in milliseconds). -/
def DEFAULT_SUBSCRIPTION_DURATION : Nat := 30 * 24 * 60 * 60 * 1000

/-- `OracleService` struct from oracle_marketplace.move.  `Url` is modelled
as `String`. -/
structure OracleService where
  id : Nat
  provider : Nat
  name : String
  service_type : String
  description : String
  price_per_query : Nat
  collateral : Nat
  total_queries : Nat
  successful_queries : Nat
  config_id : Option String
  documentation_url : Option String
  active : Bool
  created_at : Nat
deriving DecidableEq, Repr

/-- `Subscription` struct from oracle_marketplace.move. -/
structure Subscription where
  id : Nat
  subscriber : Nat
  service_id : Nat
  start_time : Nat
  end_time : Nat
  active : Bool
  created_at : Nat
deriving DecidableEq, Repr

/-- `QueryRecord` struct from oracle_marketplace.move. -/
structure QueryRecord where
  id : Nat
  query_id : String
  service_id : Nat
  requester : Nat
  payment : Nat
  query_time : Nat
  success : Bool
deriving DecidableEq, Repr

/-- `OracleQuery` struct from oracle_core.move. -/
structure OracleQuery where
  id : Nat
  query_id : String
  query_type : String
  query_params : String
  provider : Nat
  result : Option String
  result_hash : Option String
  evidence_blob_id : Option Nat
  evidence_url : Option String
  creator : Nat
  created_at : Nat
  updated_at : Nat
  resolved : Bool
deriving DecidableEq, Repr

/-- `MarketplaceTreasury` struct from marketplace_treasury.move; the
`Balance<SUI>` is its u64 value. -/
structure MarketplaceTreasury where
  id : Nat
  platform_balance : Nat
  admin : Nat
deriving DecidableEq, Repr

/-- `CollateralPool` struct from marketplace_treasury.move.  The dynamic
fields attached to `pool.id` (one `Balance<SUI>` per service `ID`) are an
association list `entries`; the struct field `total_collateral` is the
`Balance<SUI>` stored in the struct itself. -/
structure CollateralPool where
  id : Nat
  entries : List (Nat × Nat)
  total_collateral : Nat
deriving DecidableEq, Repr

/-- Update (or append) the binding of key `k` in an association list, the
image of `dynamic_field::borrow_mut` assignment / `dynamic_field::add`. -/
def setEntry : List (Nat × Nat) → Nat → Nat → List (Nat × Nat)
  | [], k, v => [(k, v)]
  | (k', v') :: rest, k, v =>
      if k' = k then (k, v) :: rest else (k', v') :: setEntry rest k v

/-- `create_collateral_pool` from marketplace_treasury.move: fresh pool with
zero `total_collateral` and no dynamic fields. -/
def create_collateral_pool (fresh_id : Nat) : CollateralPool :=
  { id := fresh_id, entries := [], total_collateral := 0 }

/-- `deposit_collateral` from marketplace_treasury.move: joins the coin into
the dynamic field for `service_id` if one exists (u64 `balance::join`, abort
on overflow), else adds a new dynamic field.  `total_collateral` is not
touched. -/
def deposit_collateral (pool : CollateralPool) (service_id collateral : Nat) :
    Except MoveError CollateralPool :=
  match pool.entries.lookup service_id with
  | some existing =>
      match u64Add existing collateral with
      | .error e => .error e
      | .ok joined => .ok { pool with entries := setEntry pool.entries service_id joined }
  | none => .ok { pool with entries := setEntry pool.entries service_id collateral }

/-- `withdraw_collateral` from marketplace_treasury.move.  Checks, in source
order: dynamic field exists (`E_COLLATERAL_NOT_FOUND`), sender equals the
`provider` argument (`E_NOT_PROVIDER`), stored balance covers `amount`
(`E_INSUFFICIENT_BALANCE`).  On success returns the updated pool and the
value of the extracted coin (`coin::take`). -/
def withdraw_collateral (pool : CollateralPool)
    (service_id provider amount sender : Nat) :
    Except MoveError (CollateralPool × Nat) :=
  match pool.entries.lookup service_id with
  | none => .error .collateralNotFound
  | some current_amount =>
      if sender ≠ provider then .error .notProvider
      else if current_amount < amount then .error .insufficientBalance
      else .ok ({ pool with entries := setEntry pool.entries service_id (current_amount - amount) },
                amount)

/-- `get_service_collateral` from marketplace_treasury.move. -/
def get_service_collateral (pool : CollateralPool) (service_id : Nat) : Nat :=
  match pool.entries.lookup service_id with
  | some v => v
  | none => 0

/-- `get_total_collateral` from marketplace_treasury.move: the value of the
struct field `total_collateral`. -/
def get_total_collateral (pool : CollateralPool) : Nat :=
  pool.total_collateral

/-- `deposit_platform_fee` from marketplace_treasury.move (`balance::join`,
u64 abort on overflow). -/
def deposit_platform_fee (treasury : MarketplaceTreasury) (payment : Nat) :
    Except MoveError MarketplaceTreasury :=
  match u64Add treasury.platform_balance payment with
  | .error e => .error e
  | .ok joined => .ok { treasury with platform_balance := joined }

/-- Fee split of `query_oracle_sync` (oracle_marketplace.move lines 357-358):
`platform_fee = fee * PLATFORM_FEE_BPS / 10000` (u64 multiplication aborts on
overflow, division truncates) and `provider_fee = fee - platform_fee`. -/
def feeSplit (fee : Nat) : Except MoveError (Nat × Nat) :=
  match u64Mul fee PLATFORM_FEE_BPS with
  | .error e => .error e
  | .ok m =>
      match u64Sub fee (m / 10000) with
      | .error e => .error e
      | .ok provider_fee => .ok (m / 10000, provider_fee)

/-- `is_subscription_valid` from oracle_marketplace.move:
`subscription.active && current_time <= subscription.end_time`. -/
def is_subscription_valid (subscription : Subscription) (current_time : Nat) : Bool :=
  subscription.active && decide (current_time ≤ subscription.end_time)

/-- `create_service_simple` from oracle_marketplace.move.  Asserts
`price_per_query > 0` (`E_INVALID_PRICE`; on u64 the negation is
`price_per_query = 0`), then `collateral >= MIN_COLLATERAL`
(`E_INSUFFICIENT_COLLATERAL`).  On success the service (shared) is returned
together with the transfer of the collateral coin back to the sender. -/
def create_service_simple (name service_type description : String)
    (price_per_query collateral : Nat) (sender now fresh_id : Nat) :
    Except MoveError (OracleService × (Nat × Nat)) :=
  if price_per_query = 0 then .error .invalidPrice
  else if collateral < MIN_COLLATERAL then .error .insufficientCollateral
  else .ok
    ({ id := fresh_id, provider := sender, name, service_type, description,
       price_per_query, collateral, total_queries := 0, successful_queries := 0,
       config_id := none, documentation_url := none, active := true,
       created_at := now },
     (sender, collateral))

/-- `create_service_with_pool` from oracle_marketplace.move.  Same
assertions as the simplified path; on success the collateral coin is
deposited into the pool under the fresh service id. -/
def create_service_with_pool (name service_type description : String)
    (price_per_query collateral : Nat) (pool : CollateralPool)
    (config_id : Option String) (documentation_url : Option String)
    (sender now fresh_id : Nat) :
    Except MoveError (OracleService × CollateralPool) :=
  if price_per_query = 0 then .error .invalidPrice
  else if collateral < MIN_COLLATERAL then .error .insufficientCollateral
  else
    match deposit_collateral pool fresh_id collateral with
    | .error e => .error e
    | .ok pool' => .ok
        ({ id := fresh_id, provider := sender, name, service_type, description,
           price_per_query, collateral, total_queries := 0, successful_queries := 0,
           config_id, documentation_url, active := true, created_at := now },
         pool')

/-- `withdraw_collateral_entry` from oracle_marketplace.move: sender must be
`service.provider` (`E_NOT_PROVIDER`), then delegates to the treasury's
`withdraw_collateral` with `provider := service.provider`; the extracted coin
is transferred to `recipient`. -/
def withdraw_collateral_entry (service : OracleService) (pool : CollateralPool)
    (amount recipient sender : Nat) :
    Except MoveError (CollateralPool × (Nat × Nat)) :=
  if sender ≠ service.provider then .error .notProvider
  else
    match withdraw_collateral pool service.id service.provider amount sender with
    | .error e => .error e
    | .ok (pool', c) => .ok (pool', (recipient, c))

/-- `update_price_entry` from oracle_marketplace.move. -/
def update_price_entry (service : OracleService) (new_price sender : Nat) :
    Except MoveError OracleService :=
  if sender ≠ service.provider then .error .notProvider
  else if new_price = 0 then .error .invalidPrice
  else .ok { service with price_per_query := new_price }

/-- `set_active_entry` from oracle_marketplace.move. -/
def set_active_entry (service : OracleService) (active : Bool) (sender : Nat) :
    Except MoveError OracleService :=
  if sender ≠ service.provider then .error .notProvider
  else .ok { service with active }

/-- `update_config_id_entry` from oracle_marketplace.move. -/
def update_config_id_entry (service : OracleService) (config_id : String) (sender : Nat) :
    Except MoveError OracleService :=
  if sender ≠ service.provider then .error .notProvider
  else .ok { service with config_id := some config_id }

/-- `update_documentation_url_entry` from oracle_marketplace.move. -/
def update_documentation_url_entry (service : OracleService)
    (documentation_url : String) (sender : Nat) :
    Except MoveError OracleService :=
  if sender ≠ service.provider then .error .notProvider
  else .ok { service with documentation_url := some documentation_url }

/-- `create_subscription` from oracle_marketplace.move: requires the service
active; `end_time = start_time + DEFAULT_SUBSCRIPTION_DURATION` (u64
addition). -/
def create_subscription (service : OracleService) (sender now fresh_id : Nat) :
    Except MoveError Subscription :=
  if service.active = false then .error .serviceInactive
  else
    match u64Add now DEFAULT_SUBSCRIPTION_DURATION with
    | .error e => .error e
    | .ok end_time => .ok
        { id := fresh_id, subscriber := sender, service_id := service.id,
          start_time := now, end_time, active := true, created_at := now }

/-- `create_query` from oracle_core.move. -/
def create_query (query_id query_type query_params : String)
    (provider sender now fresh_id : Nat) : OracleQuery :=
  { id := fresh_id, query_id, query_type, query_params, provider,
    result := none, result_hash := none, evidence_blob_id := none,
    evidence_url := none, creator := sender, created_at := now,
    updated_at := now, resolved := false }

/-- Normalisation of the result payload shared by `resolve_query_entry` and
`update_query_data`: an empty byte vector becomes the empty-object sentinel. -/
def normalizeResult (result : String) : String :=
  if result.length = 0 then "\x7b\x7d" else result

/-- Normalisation of the result hash: an empty byte vector becomes the empty
string. -/
def normalizeHash (result_hash : String) : String :=
  if result_hash.length = 0 then "" else result_hash

/-- `resolve_query_entry` from oracle_core.move.  Asserts, in source order:
not already resolved (`E_QUERY_ALREADY_RESOLVED`), sender is the query's
provider (`E_NOT_PROVIDER`).  Sets the result fields and flips
`resolved := true`. -/
def resolve_query_entry (query : OracleQuery)
    (result result_hash evidence_url_bytes : String) (sender now : Nat) :
    Except MoveError OracleQuery :=
  if query.resolved then .error .alreadyResolved
  else if sender ≠ query.provider then .error .notProvider
  else .ok
    { query with
      result := some (normalizeResult result),
      result_hash := some (normalizeHash result_hash),
      evidence_url := some evidence_url_bytes,
      resolved := true,
      updated_at := now }

/-- `update_query_data` from oracle_core.move.  Same body as
`resolve_query_entry` but with no already-resolved guard: only the provider
check, and `resolved := true` unconditionally. -/
def update_query_data (query : OracleQuery)
    (result result_hash evidence_url_bytes : String) (sender now : Nat) :
    Except MoveError OracleQuery :=
  if sender ≠ query.provider then .error .notProvider
  else .ok
    { query with
      result := some (normalizeResult result),
      result_hash := some (normalizeHash result_hash),
      evidence_url := some evidence_url_bytes,
      resolved := true,
      updated_at := now }

/-- `is_resolved` from oracle_core.move. -/
def is_resolved (query : OracleQuery) : Bool :=
  query.resolved

/-- `OracleQueryResult` struct from oracle_marketplace.move. -/
structure OracleQueryResult where
  query_id : String
  result : String
  result_hash : String
  query_time : Nat
deriving DecidableEq, Repr

/-- The full effect of a successful `query_oracle_sync` call: the updated
service and treasury, the value left in the caller's payment coin, the
transfer of the provider's share (recipient, amount), the `QueryRecord` and
the address it is transferred to, and the returned `OracleQueryResult`. -/
structure QuerySyncOk where
  service : OracleService
  treasury : MarketplaceTreasury
  payment : Nat
  provider_transfer : Nat × Nat
  record : QueryRecord
  record_recipient : Nat
  result : OracleQueryResult
deriving DecidableEq, Repr

/-- `query_oracle_sync` from oracle_marketplace.move.  The six validation
asserts appear in source order (lines 336-350); then the fee is split from
the payment coin, divided by `feeSplit`, the platform share deposited into
the treasury, the rest transferred to the provider, the counters incremented
(u64 additions) and the `QueryRecord` transferred to the subscriber. -/
def query_oracle_sync (service : OracleService) (subscription : Subscription)
    (query : OracleQuery) (payment : Nat) (treasury : MarketplaceTreasury)
    (current_time sender record_id : Nat) :
    Except MoveError QuerySyncOk :=
  if service.active = false then .error .serviceInactive
  else if subscription.active = false then .error .subscriptionExpired
  else if subscription.end_time < current_time then .error .subscriptionExpired
  else if subscription.service_id ≠ service.id then .error .subscriptionMismatch
  else if sender ≠ subscription.subscriber then .error .subscriptionExpired
  else if payment < service.price_per_query then .error .insufficientPayment
  else if query.resolved = false then .error .queryNotResolved
  else
    let fee := service.price_per_query
    match feeSplit fee with
    | .error e => .error e
    | .ok (platform_fee, provider_fee) =>
        match deposit_platform_fee treasury platform_fee with
        | .error e => .error e
        | .ok treasury' =>
            match u64Add service.total_queries 1 with
            | .error e => .error e
            | .ok tq =>
                match u64Add service.successful_queries 1 with
                | .error e => .error e
                | .ok sq => .ok
                    { service := { service with total_queries := tq, successful_queries := sq },
                      treasury := treasury',
                      payment := payment - fee,
                      provider_transfer := (service.provider, provider_fee),
                      record :=
                        { id := record_id, query_id := query.query_id,
                          service_id := service.id,
                          requester := subscription.subscriber,
                          payment := fee, query_time := current_time,
                          success := true },
                      record_recipient := subscription.subscriber,
                      result :=
                        { query_id := query.query_id,
                          result :=
                            match query.result with
                            | some r => r
                            | none => "\x7b\x7d",
                          result_hash :=
                            match query.result_hash with
                            | some h => h
                            | none => "",
                          query_time := current_time } }

/-- The state a `query_oracle_sync` transaction commits: on `.ok` the new
service/treasury/payment, on `.error` (a Move abort) the host ledger keeps
the pre-state untouched. -/
def querySyncCommitted (service : OracleService) (subscription : Subscription)
    (query : OracleQuery) (payment : Nat) (treasury : MarketplaceTreasury)
    (current_time sender record_id : Nat) :
    OracleService × MarketplaceTreasury × Nat :=
  match query_oracle_sync service subscription query payment treasury
      current_time sender record_id with
  | .ok out => (out.service, out.treasury, out.payment)
  | .error _ => (service, treasury, payment)

/-- The marketplace state a single service's transactions touch: the service
itself, the shared treasury and the shared collateral pool. -/
structure MktState where
  service : OracleService
  treasury : MarketplaceTreasury
  pool : CollateralPool
deriving DecidableEq, Repr

/-- One top-level transaction against a service, with the auxiliary inputs
each entry point takes. -/
inductive MOp where
  | query (subscription : Subscription) (q : OracleQuery)
      (payment current_time sender record_id : Nat)
  | updatePrice (new_price sender : Nat)
  | setActive (active : Bool) (sender : Nat)
  | updateConfigId (config_id : String) (sender : Nat)
  | updateDocUrl (documentation_url : String) (sender : Nat)
  | withdrawColl (amount recipient sender : Nat)
deriving DecidableEq, Repr

/-- Whether an operation is a settlement (`query_oracle_sync`) call. -/
def MOp.isQuery : MOp → Bool
  | .query _ _ _ _ _ _ => true
  | _ => false

/-- Run one transaction against the state; `.error` is a Move abort. -/
def applyOp (st : MktState) : MOp → Except MoveError MktState
  | .query subscription q payment t sender rid =>
      match query_oracle_sync st.service subscription q payment st.treasury t sender rid with
      | .error e => .error e
      | .ok out => .ok { st with service := out.service, treasury := out.treasury }
  | .updatePrice p s =>
      match update_price_entry st.service p s with
      | .error e => .error e
      | .ok sv => .ok { st with service := sv }
  | .setActive a s =>
      match set_active_entry st.service a s with
      | .error e => .error e
      | .ok sv => .ok { st with service := sv }
  | .updateConfigId c s =>
      match update_config_id_entry st.service c s with
      | .error e => .error e
      | .ok sv => .ok { st with service := sv }
  | .updateDocUrl u s =>
      match update_documentation_url_entry st.service u s with
      | .error e => .error e
      | .ok sv => .ok { st with service := sv }
  | .withdrawColl amount recipient s =>
      match withdraw_collateral_entry st.service st.pool amount recipient s with
      | .error e => .error e
      | .ok (pool', _) => .ok { st with pool := pool' }

/-- Commit semantics of the host ledger: a transaction that aborts leaves the
state untouched. -/
def commitOp (st : MktState) (op : MOp) : MktState :=
  match applyOp st op with
  | .ok st' => st'
  | .error _ => st

/-- Run a sequence of transactions, each committing or aborting atomically. -/
def runSeq (st : MktState) : List MOp → MktState
  | [] => st
  | op :: rest => runSeq (commitOp st op) rest

/-- `Except.isOk` as a plain Bool. -/
def exceptOk {ε α : Type} : Except ε α → Bool
  | .ok _ => true
  | .error _ => false

/-- Number of settlement calls in the sequence that succeed at their point of
execution. -/
def countQuerySuccess (st : MktState) : List MOp → Nat
  | [] => 0
  | op :: rest =>
      (if op.isQuery && exceptOk (applyOp st op) then 1 else 0) +
        countQuerySuccess (commitOp st op) rest

/-- Collateral-pool states reachable from creation through the module's two
mutators (successful deposits and withdrawals). -/
inductive ReachablePool : CollateralPool → Prop where
  | create (fresh_id : Nat) : ReachablePool (create_collateral_pool fresh_id)
  | deposit {p p' : CollateralPool} {sid c : Nat} :
      ReachablePool p → deposit_collateral p sid c = .ok p' → ReachablePool p'
  | withdraw {p p' : CollateralPool} {sid prov amt sender x : Nat} :
      ReachablePool p → withdraw_collateral p sid prov amt sender = .ok (p', x) →
      ReachablePool p'

/-- Commit semantics for a single-resource entry function: a Move abort
leaves the resource as it was. -/
def commitR {α : Type} (pre : α) (r : Except MoveError α) : α :=
  match r with
  | .ok a => a
  | .error _ => pre

/-! Concrete instances used by the witness theorems, mirroring the
scenario of the spec (price 1000, collateral 10,000,000, payment with
remainder). -/

/-- A concrete active service: provider 1, price 1000 MIST. -/
def svc0 : OracleService :=
  { id := 3, provider := 1, name := "svc", service_type := "price",
    description := "d", price_per_query := 1000, collateral := 10000000,
    total_queries := 0, successful_queries := 0, config_id := none,
    documentation_url := none, active := true, created_at := 0 }

/-- A concrete subscription of subscriber 7 to `svc0`, created at time 0. -/
def sub0 : Subscription :=
  { id := 4, subscriber := 7, service_id := 3, start_time := 0,
    end_time := 2592000000, active := true, created_at := 0 }

/-- A concrete resolved query owned by provider 1. -/
def qry0 : OracleQuery :=
  { id := 5, query_id := "q1", query_type := "price", query_params := "p",
    provider := 1, result := some "r", result_hash := some "h",
    evidence_blob_id := none, evidence_url := none, creator := 1,
    created_at := 0, updated_at := 0, resolved := true }

/-- `qry0` before resolution. -/
def qryU : OracleQuery :=
  { qry0 with result := none, result_hash := none, resolved := false }

/-- A concrete empty treasury. -/
def tre0 : MarketplaceTreasury :=
  { id := 9, platform_balance := 0, admin := 0 }

/-- The settlement output for `svc0`/`sub0`/`qry0` with payment 1500 at
time 5, sender 7, record id 42: fee 1000 splits into 30 platform / 970
provider, 500 stays with the caller. -/
def out0 : QuerySyncOk :=
  { service := { svc0 with total_queries := 1, successful_queries := 1 },
    treasury := { tre0 with platform_balance := 30 },
    payment := 500,
    provider_transfer := (1, 970),
    record := { id := 42, query_id := "q1", service_id := 3, requester := 7,
                payment := 1000, query_time := 5, success := true },
    record_recipient := 7,
    result := { query_id := "q1", result := "r", result_hash := "h",
                query_time := 5 } }

/-- A subscription created at T = 1000 with the default duration. -/
def c4sub : Subscription :=
  { id := 0, subscriber := 7, service_id := 3, start_time := 1000,
    end_time := 1000 + DEFAULT_SUBSCRIPTION_DURATION, active := true,
    created_at := 1000 }

/-- A concrete pool holding 10,000,000 MIST of collateral for service 3. -/
def pool1 : CollateralPool :=
  { id := 8, entries := [(3, 10000000)], total_collateral := 0 }

/-- `pool1` after withdrawing 4,000,000 MIST from service 3's entry. -/
def pool1' : CollateralPool :=
  { id := 8, entries := [(3, 6000000)], total_collateral := 0 }

/-- A concrete marketplace state bundling `svc0`, `tre0` and an empty pool. -/
def st0 : MktState :=
  { service := svc0, treasury := tre0, pool := create_collateral_pool 8 }

/-- `st0` after one successful settlement. -/
def st1 : MktState :=
  { service := { svc0 with total_queries := 1, successful_queries := 1 },
    treasury := { tre0 with platform_balance := 30 },
    pool := create_collateral_pool 8 }

/-! ## Helper lemmas -/

theorem u64Add_ok {a b c : Nat} (h : u64Add a b = .ok c) : c = a + b := by
  unfold u64Add at h
  split at h
  · exact (Except.ok.inj h).symm
  · exact Except.noConfusion h

theorem u64Mul_ok {a b c : Nat} (h : u64Mul a b = .ok c) : c = a * b := by
  unfold u64Mul at h
  split at h
  · exact (Except.ok.inj h).symm
  · exact Except.noConfusion h

theorem u64Sub_ok {a b c : Nat} (h : u64Sub a b = .ok c) :
    c = a - b ∧ b ≤ a := by
  unfold u64Sub at h
  split at h
  · exact ⟨(Except.ok.inj h).symm, by assumption⟩
  · exact Except.noConfusion h

theorem feeSplit_ok {fee pf prf : Nat} (h : feeSplit fee = .ok (pf, prf)) :
    pf = fee * 300 / 10000 ∧ prf = fee - pf ∧ pf + prf = fee := by
  unfold feeSplit at h
  split at h
  · exact Except.noConfusion h
  rename_i m hm
  split at h
  · exact Except.noConfusion h
  rename_i prf' hsub
  have hpair := Except.ok.inj h
  have hpf : pf = m / 10000 := (congrArg Prod.fst hpair).symm
  have hprf2 : prf = prf' := (congrArg Prod.snd hpair).symm
  have hmval : m = fee * 300 := u64Mul_ok hm
  obtain ⟨hsubval, hle⟩ := u64Sub_ok hsub
  subst hmval hpf hprf2 hsubval
  exact ⟨rfl, rfl, Nat.add_sub_cancel' hle⟩

theorem deposit_platform_fee_ok {tr tr' : MarketplaceTreasury} {amt : Nat}
    (h : deposit_platform_fee tr amt = .ok tr') :
    tr'.platform_balance = tr.platform_balance + amt ∧
    tr'.admin = tr.admin ∧ tr'.id = tr.id := by
  unfold deposit_platform_fee at h
  split at h
  · exact Except.noConfusion h
  · rename_i joined hj
    obtain rfl := (Except.ok.inj h).symm
    exact ⟨(u64Add_ok hj).symm ▸ rfl, rfl, rfl⟩

theorem update_price_entry_ok {service sv : OracleService} {p s : Nat}
    (h : update_price_entry service p s = .ok sv) :
    sv = { service with price_per_query := p } := by
  unfold update_price_entry at h
  split at h
  · exact Except.noConfusion h
  · split at h
    · exact Except.noConfusion h
    · exact (Except.ok.inj h).symm

theorem set_active_entry_ok {service sv : OracleService} {a : Bool} {s : Nat}
    (h : set_active_entry service a s = .ok sv) :
    sv = { service with active := a } := by
  unfold set_active_entry at h
  split at h
  · exact Except.noConfusion h
  · exact (Except.ok.inj h).symm

theorem update_config_id_entry_ok {service sv : OracleService} {c : String} {s : Nat}
    (h : update_config_id_entry service c s = .ok sv) :
    sv = { service with config_id := some c } := by
  unfold update_config_id_entry at h
  split at h
  · exact Except.noConfusion h
  · exact (Except.ok.inj h).symm

theorem update_documentation_url_entry_ok {service sv : OracleService}
    {u : String} {s : Nat}
    (h : update_documentation_url_entry service u s = .ok sv) :
    sv = { service with documentation_url := some u } := by
  unfold update_documentation_url_entry at h
  split at h
  · exact Except.noConfusion h
  · exact (Except.ok.inj h).symm

theorem lookup_setEntry_self (l : List (Nat × Nat)) (k v : Nat) :
    (setEntry l k v).lookup k = some v := by
  induction l with
  | nil => simp [setEntry, List.lookup]
  | cons hd tl ih =>
      obtain ⟨k', v'⟩ := hd
      by_cases hk : k' = k
      · simp [setEntry, hk, List.lookup]
      · have hbeq : (k == k') = false := by
          simp [Ne.symm hk]
        simp [setEntry, hk, List.lookup, hbeq, ih]

/-- Full characterisation of a successful `query_oracle_sync` call. -/
theorem query_oracle_sync_ok_spec {service : OracleService} {sub : Subscription}
    {q : OracleQuery} {payment : Nat} {treasury : MarketplaceTreasury}
    {t sender rid : Nat} {out : QuerySyncOk}
    (h : query_oracle_sync service sub q payment treasury t sender rid = .ok out) :
    out.service = { service with
                    total_queries := service.total_queries + 1,
                    successful_queries := service.successful_queries + 1 } ∧
    out.treasury.platform_balance =
      treasury.platform_balance + service.price_per_query * 300 / 10000 ∧
    out.payment = payment - service.price_per_query ∧
    service.price_per_query ≤ payment ∧
    out.provider_transfer =
      (service.provider,
       service.price_per_query - service.price_per_query * 300 / 10000) ∧
    out.record = { id := rid,
                   query_id := q.query_id,
                   service_id := service.id,
                   requester := sub.subscriber,
                   payment := service.price_per_query,
                   query_time := t,
                   success := true } ∧
    out.record_recipient = sub.subscriber := by
  unfold query_oracle_sync at h
  split at h
  · exact Except.noConfusion h
  split at h
  · exact Except.noConfusion h
  split at h
  · exact Except.noConfusion h
  split at h
  · exact Except.noConfusion h
  split at h
  · exact Except.noConfusion h
  split at h
  · exact Except.noConfusion h
  split at h
  · exact Except.noConfusion h
  rename_i h1 h2 h3 h4 h5 h6 h7
  cases hfs : feeSplit service.price_per_query with
  | error e => simp only [hfs] at h; exact Except.noConfusion h
  | ok pr =>
      obtain ⟨pf, prf⟩ := pr
      simp only [hfs] at h
      cases hdep : deposit_platform_fee treasury pf with
      | error e => simp only [hdep] at h; exact Except.noConfusion h
      | ok tr' =>
          simp only [hdep] at h
          cases htq : u64Add service.total_queries 1 with
          | error e => simp only [htq] at h; exact Except.noConfusion h
          | ok tq =>
              simp only [htq] at h
              cases hsq : u64Add service.successful_queries 1 with
              | error e => simp only [hsq] at h; exact Except.noConfusion h
              | ok sq =>
                  simp only [hsq] at h
                  obtain rfl := (Except.ok.inj h).symm
                  obtain ⟨hpf, hprf, _⟩ := feeSplit_ok hfs
                  obtain ⟨hbal, _, _⟩ := deposit_platform_fee_ok hdep
                  refine ⟨?_, ?_, rfl, ?_, ?_, rfl, rfl⟩
                  · simp [u64Add_ok htq, u64Add_ok hsq]
                  · simpa [hpf] using hbal
                  · omega
                  · simp [hprf, hpf]

/-! ## Claim C2 — fee split -/

/-- Claim C2 counterexample: the split is not computed for every `fee` value.
At `fee = 2^60` (a representable u64 price) the u64 multiplication
`fee * 300` overflows, so `query_oracle_sync`'s fee computation aborts
instead of producing `platform_fee`/`provider_fee`. -/
theorem feeSplit_overflow_large_fee :
    feeSplit (2 ^ 60) = .error .arithmeticOverflow ∧ 2 ^ 60 ≤ U64_MAX := by
  constructor
  · rfl
  · norm_num [U64_MAX]

/-- Claim C2 (amended): for every `fee` with `fee * 300 ≤ U64_MAX` (all fees
up to 61,489,146,912,499,694 MIST) the settlement fee split computes
`platform_fee = fee * 300 / 10000` (truncating division) and
`provider_fee = fee - platform_fee`, and `platform_fee + provider_fee = fee`
— no funds created or destroyed, truncation favouring the provider.  For
larger fees the u64 multiplication aborts the transaction. -/
theorem feeSplit_exact (fee : Nat) (h : fee * 300 ≤ U64_MAX) :
    feeSplit fee = .ok (fee * 300 / 10000, fee - fee * 300 / 10000) ∧
    fee * 300 / 10000 + (fee - fee * 300 / 10000) = fee := by
  have hle : fee * 300 / 10000 ≤ fee := by
    have h1 : fee * 300 ≤ fee * 10000 := Nat.mul_le_mul_left fee (by norm_num)
    have h2 : fee * 10000 / 10000 = fee := by
      omega
    calc fee * 300 / 10000 ≤ fee * 10000 / 10000 := Nat.div_le_div_right h1
    _ = fee := h2
  constructor
  · simp [feeSplit, u64Mul, u64Sub, PLATFORM_FEE_BPS, h, hle]
  · omega

/-- Claim C2 witness: the spec's own example, fee = 1,000,000 splits into
30,000 platform / 970,000 provider. -/
theorem feeSplit_exact_witness :
    feeSplit 1000000 =
      .ok (1000000 * 300 / 10000, 1000000 - 1000000 * 300 / 10000) ∧
    1000000 * 300 / 10000 + (1000000 - 1000000 * 300 / 10000) = 1000000 :=
  feeSplit_exact 1000000 (by norm_num [U64_MAX])

/-! ## Claim C4 — subscription validity window -/

/-- Claim C4 counterexample: `is_subscription_valid` performs no lower-bound
check against `start_time`.  For the default-duration subscription `c4sub`
created at T = 1000, the function returns `true` at `current_time = 0 < T`,
where the claim requires `false`. -/
theorem subscription_valid_before_start :
    c4sub.active = true ∧
    c4sub.start_time = 1000 ∧
    c4sub.end_time = c4sub.start_time + 2592000000 ∧
    is_subscription_valid c4sub 0 = true := by
  decide

/-- Claim C4 (amended): a subscription with the default duration
(`end_time = start_time + 2,592,000,000`) is valid iff `active = true` and
`current_time ≤ start_time + 2,592,000,000`; there is no lower bound on
`current_time`.  In particular validity fails at
`current_time = start_time + 2,592,000,001`, and `query_oracle_sync` at that
time aborts with the expired-subscription error for any active service. -/
theorem subscription_window_amended (sub : Subscription) (t : Nat)
    (hend : sub.end_time = sub.start_time + 2592000000) :
    (is_subscription_valid sub t = true ↔
      sub.active = true ∧ t ≤ sub.start_time + 2592000000) ∧
    is_subscription_valid sub (sub.start_time + 2592000001) = false ∧
    (∀ (service : OracleService) (q : OracleQuery) (payment : Nat)
       (treasury : MarketplaceTreasury) (sender rid : Nat),
       service.active = true →
       query_oracle_sync service sub q payment treasury
           (sub.start_time + 2592000001) sender rid
         = .error .subscriptionExpired) := by
  refine ⟨?_, ?_, ?_⟩
  · simp [is_subscription_valid, hend]
  · have hnle : ¬ (sub.start_time + 2592000001 ≤ sub.end_time) := by omega
    simp [is_subscription_valid, hnle]
  · intro service q payment treasury sender rid hact
    cases hsa : sub.active with
    | false => simp [query_oracle_sync, hact, hsa]
    | true =>
        have hlt : sub.end_time < sub.start_time + 2592000001 := by omega
        simp [query_oracle_sync, hact, hsa, hlt]

/-- Claim C4 witness: at `current_time = end_time + 1` the concrete
subscription `c4sub` is invalid. -/
theorem subscription_window_amended_witness :
    is_subscription_valid c4sub (c4sub.start_time + 2592000001) = false :=
  (subscription_window_amended c4sub 0 (by decide)).2.1

/-! ## Claim C1 — settlement effects -/

/-- Claim C1: every successful `query_oracle_sync` call removes exactly
`service.price_per_query` from the payment coin (the remainder stays with
the caller), deposits the platform share `fee * 300 / 10000` into the
treasury's platform balance, transfers the provider share `fee - platform`
to `service.provider`, and creates a `QueryRecord` with
`requester = subscription.subscriber`, `payment = service.price_per_query`,
`query_time = current_time` and `success = true`, transferred to the
subscriber. -/
theorem query_sync_settlement_effects (service : OracleService)
    (sub : Subscription) (q : OracleQuery) (payment : Nat)
    (treasury : MarketplaceTreasury) (t sender rid : Nat) (out : QuerySyncOk)
    (h : query_oracle_sync service sub q payment treasury t sender rid = .ok out) :
    out.payment + service.price_per_query = payment ∧
    out.treasury.platform_balance =
      treasury.platform_balance + service.price_per_query * 300 / 10000 ∧
    out.provider_transfer =
      (service.provider,
       service.price_per_query - service.price_per_query * 300 / 10000) ∧
    out.record.requester = sub.subscriber ∧
    out.record.payment = service.price_per_query ∧
    out.record.query_time = t ∧
    out.record.success = true ∧
    out.record_recipient = sub.subscriber := by
  obtain ⟨hs, hb, hp, hle, hpt, hrec, hrr⟩ := query_oracle_sync_ok_spec h
  exact ⟨by omega, hb, hpt, by rw [hrec], by rw [hrec], by rw [hrec],
         by rw [hrec], hrr⟩

/-- Claim C1 witness: the concrete settlement `svc0`/`sub0`/`qry0` with
payment 1500 at time 5 leaves 500 with the caller, 30 in the treasury, 970
to provider 1, and a successful record owned by subscriber 7. -/
theorem query_sync_settlement_effects_witness :
    out0.payment + svc0.price_per_query = 1500 ∧
    out0.treasury.platform_balance =
      tre0.platform_balance + svc0.price_per_query * 300 / 10000 ∧
    out0.provider_transfer =
      (svc0.provider,
       svc0.price_per_query - svc0.price_per_query * 300 / 10000) ∧
    out0.record.requester = sub0.subscriber ∧
    out0.record.payment = svc0.price_per_query ∧
    out0.record.query_time = 5 ∧
    out0.record.success = true ∧
    out0.record_recipient = sub0.subscriber :=
  query_sync_settlement_effects svc0 sub0 qry0 1500 tre0 5 7 42 out0 rfl

/-! ## Claim C3 — check order and atomicity -/

/-- Claim C3: the six validation checks of `query_oracle_sync` run in strict
source order with the corresponding error kinds — service inactive, then
subscription inactive/time-expired (both `subscriptionExpired`), then
service-id mismatch, then caller ≠ subscriber (raised as the expired-class
error), then insufficient payment, then unresolved query — and any failure
aborts with the committed state equal to the pre-state (no fund movement,
no counter change). -/
theorem query_sync_check_order (service : OracleService) (sub : Subscription)
    (q : OracleQuery) (payment : Nat) (treasury : MarketplaceTreasury)
    (t sender rid : Nat) :
    (service.active = false →
      query_oracle_sync service sub q payment treasury t sender rid
        = .error .serviceInactive) ∧
    (service.active = true → (sub.active = false ∨ sub.end_time < t) →
      query_oracle_sync service sub q payment treasury t sender rid
        = .error .subscriptionExpired) ∧
    (service.active = true → sub.active = true → t ≤ sub.end_time →
     sub.service_id ≠ service.id →
      query_oracle_sync service sub q payment treasury t sender rid
        = .error .subscriptionMismatch) ∧
    (service.active = true → sub.active = true → t ≤ sub.end_time →
     sub.service_id = service.id → sender ≠ sub.subscriber →
      query_oracle_sync service sub q payment treasury t sender rid
        = .error .subscriptionExpired) ∧
    (service.active = true → sub.active = true → t ≤ sub.end_time →
     sub.service_id = service.id → sender = sub.subscriber →
     payment < service.price_per_query →
      query_oracle_sync service sub q payment treasury t sender rid
        = .error .insufficientPayment) ∧
    (service.active = true → sub.active = true → t ≤ sub.end_time →
     sub.service_id = service.id → sender = sub.subscriber →
     service.price_per_query ≤ payment → q.resolved = false →
      query_oracle_sync service sub q payment treasury t sender rid
        = .error .queryNotResolved) ∧
    (∀ e, query_oracle_sync service sub q payment treasury t sender rid
        = .error e →
      querySyncCommitted service sub q payment treasury t sender rid
        = (service, treasury, payment)) := by
  refine ⟨?_, ?_, ?_, ?_, ?_, ?_, ?_⟩
  · intro h1
    simp [query_oracle_sync, h1]
  · intro h1 hd
    cases hsa : sub.active with
    | false => simp [query_oracle_sync, h1, hsa]
    | true =>
        rcases hd with hd | hd
        · rw [hsa] at hd
          exact absurd hd (by simp)
        · simp [query_oracle_sync, h1, hsa, hd]
  · intro h1 h2 h3 h4
    simp [query_oracle_sync, h1, h2, Nat.not_lt.mpr h3, h4]
  · intro h1 h2 h3 h4 h5
    simp [query_oracle_sync, h1, h2, Nat.not_lt.mpr h3, h4, h5]
  · intro h1 h2 h3 h4 h5 h6
    simp [query_oracle_sync, h1, h2, Nat.not_lt.mpr h3, h4, h5, h6]
  · intro h1 h2 h3 h4 h5 h6 h7
    simp [query_oracle_sync, h1, h2, Nat.not_lt.mpr h3, h4, h5,
          Nat.not_lt.mpr h6, h7]
  · intro e h
    simp [querySyncCommitted, h]

/-- Claim C3 witness: with everything valid but the query unresolved, the
settlement fails with exactly `queryNotResolved`. -/
theorem query_sync_check_order_witness :
    query_oracle_sync svc0 sub0 qryU 1500 tre0 5 7 42
      = .error .queryNotResolved :=
  (query_sync_check_order svc0 sub0 qryU 1500 tre0 5 7 42).2.2.2.2.2.1
    rfl rfl (by decide) rfl rfl (by decide) rfl

/-! ## Claim C5 — service creation validation -/

/-- Claim C5: on both creation paths, a zero price fails with `invalidPrice`
(no service is created — the call returns no service), collateral below
`MIN_COLLATERAL` fails with `insufficientCollateral`, and a successful
creation yields a service with `active = true` and both query counters
zero. -/
theorem create_service_validation (name service_type description : String)
    (price collateral : Nat) (pool : CollateralPool)
    (config_id documentation_url : Option String) (sender now fresh_id : Nat) :
    (price = 0 →
      create_service_simple name service_type description price collateral
          sender now fresh_id = .error .invalidPrice ∧
      create_service_with_pool name service_type description price collateral
          pool config_id documentation_url sender now fresh_id
        = .error .invalidPrice) ∧
    (price ≠ 0 → collateral < MIN_COLLATERAL →
      create_service_simple name service_type description price collateral
          sender now fresh_id = .error .insufficientCollateral ∧
      create_service_with_pool name service_type description price collateral
          pool config_id documentation_url sender now fresh_id
        = .error .insufficientCollateral) ∧
    (∀ sv tr, create_service_simple name service_type description price
          collateral sender now fresh_id = .ok (sv, tr) →
      sv.active = true ∧ sv.total_queries = 0 ∧ sv.successful_queries = 0) ∧
    (∀ sv pool', create_service_with_pool name service_type description price
          collateral pool config_id documentation_url sender now fresh_id
        = .ok (sv, pool') →
      sv.active = true ∧ sv.total_queries = 0 ∧ sv.successful_queries = 0) := by
  refine ⟨?_, ?_, ?_, ?_⟩
  · intro h
    constructor <;> simp [create_service_simple, create_service_with_pool, h]
  · intro h1 h2
    constructor <;>
      simp [create_service_simple, create_service_with_pool, h1, h2]
  · intro sv tr h
    unfold create_service_simple at h
    split at h
    · exact Except.noConfusion h
    split at h
    · exact Except.noConfusion h
    have hp := Except.ok.inj h
    injection hp with hsv htr
    subst hsv
    exact ⟨rfl, rfl, rfl⟩
  · intro sv pool' h
    unfold create_service_with_pool at h
    split at h
    · exact Except.noConfusion h
    split at h
    · exact Except.noConfusion h
    split at h
    · exact Except.noConfusion h
    have hp := Except.ok.inj h
    injection hp with hsv hpool
    subst hsv
    exact ⟨rfl, rfl, rfl⟩

/-- Claim C5 witness: zero price fails with `invalidPrice`; price 1000 with
5 MIST of collateral fails with `insufficientCollateral`. -/
theorem create_service_validation_witness :
    create_service_simple "s" "t" "d" 0 20000000 1 0 3 = .error .invalidPrice ∧
    create_service_simple "s" "t" "d" 1000 5 1 0 3
      = .error .insufficientCollateral := by
  constructor
  · exact ((create_service_validation "s" "t" "d" 0 20000000
      (create_collateral_pool 0) none none 1 0 3).1 rfl).1
  · exact ((create_service_validation "s" "t" "d" 1000 5
      (create_collateral_pool 0) none none 1 0 3).2.1 (by decide) (by decide)).1

/-! ## Claim C6 — resolve vs update guards -/

/-- Claim C6: `resolve_query_entry` on an already-resolved query fails with
`alreadyResolved`; `update_query_data` never fails with that error, and
every successful update leaves `resolved = true`. -/
theorem resolve_update_guards (q : OracleQuery) (result result_hash ev : String)
    (sender now : Nat) :
    (q.resolved = true →
      resolve_query_entry q result result_hash ev sender now
        = .error .alreadyResolved) ∧
    (update_query_data q result result_hash ev sender now
      ≠ .error .alreadyResolved) ∧
    (∀ q', update_query_data q result result_hash ev sender now = .ok q' →
      q'.resolved = true) := by
  refine ⟨?_, ?_, ?_⟩
  · intro h
    simp [resolve_query_entry, h]
  · unfold update_query_data
    split
    · simp
    · simp
  · intro q' h
    unfold update_query_data at h
    split at h
    · exact Except.noConfusion h
    obtain rfl := Except.ok.inj h
    rfl

/-- Claim C6 witness: a second `resolve` on the already-resolved `qry0`
fails with `alreadyResolved`, while `update` on the same query succeeds. -/
theorem resolve_update_guards_witness :
    resolve_query_entry qry0 "r2" "h2" "u" 1 6 = .error .alreadyResolved :=
  (resolve_update_guards qry0 "r2" "h2" "u" 1 6).1 rfl

/-! ## Claim C9 — collateral withdrawal -/

/-- Claim C9: the treasury's `withdraw_collateral` fails with
`collateralNotFound` when no dynamic field exists for the service id, with
`notProvider` when the sender differs from the provider passed by the
caller context, with `insufficientBalance` when the amount exceeds the
stored balance; on success it reduces the entry by exactly `amount` and
returns a coin of value `amount`. -/
theorem withdraw_collateral_spec (pool : CollateralPool)
    (service_id provider amount sender : Nat) :
    (pool.entries.lookup service_id = none →
      withdraw_collateral pool service_id provider amount sender
        = .error .collateralNotFound) ∧
    (∀ bal, pool.entries.lookup service_id = some bal → sender ≠ provider →
      withdraw_collateral pool service_id provider amount sender
        = .error .notProvider) ∧
    (∀ bal, pool.entries.lookup service_id = some bal → sender = provider →
     bal < amount →
      withdraw_collateral pool service_id provider amount sender
        = .error .insufficientBalance) ∧
    (∀ pool' c, withdraw_collateral pool service_id provider amount sender
        = .ok (pool', c) →
      c = amount ∧
      get_service_collateral pool' service_id + amount
        = get_service_collateral pool service_id) := by
  refine ⟨?_, ?_, ?_, ?_⟩
  · intro h
    simp [withdraw_collateral, h]
  · intro bal h hs
    simp [withdraw_collateral, h, hs]
  · intro bal h hs hlt
    simp [withdraw_collateral, h, hs, hlt]
  · intro pool' c h
    unfold withdraw_collateral at h
    cases hl : pool.entries.lookup service_id with
    | none =>
        simp only [hl] at h
        exact Except.noConfusion h
    | some bal =>
        simp only [hl] at h
        split at h
        · exact Except.noConfusion h
        split at h
        · exact Except.noConfusion h
        rename_i hnb
        have hp := Except.ok.inj h
        injection hp with hpool hc
        subst hpool
        refine ⟨hc.symm, ?_⟩
        simp only [get_service_collateral, lookup_setEntry_self, hl]
        omega

/-- Claim C9 witness: withdrawing 4,000,000 of the 10,000,000 MIST held for
service 3 in `pool1` leaves 6,000,000 and returns a 4,000,000 coin. -/
theorem withdraw_collateral_spec_witness :
    (4000000 : Nat) = 4000000 ∧
    get_service_collateral pool1' 3 + 4000000 = get_service_collateral pool1 3 :=
  (withdraw_collateral_spec pool1 3 1 4000000 1).2.2.2 pool1' 4000000 rfl

/-! ## Claim C10 — total_collateral is never touched -/

/-- Claim C10: neither `deposit_collateral` nor `withdraw_collateral`
modifies the `total_collateral` struct field (they touch only the per-service
dynamic fields), so every pool reachable from `create_collateral_pool`
through those operations has `get_total_collateral` equal to 0. -/
theorem total_collateral_invariant :
    (∀ (pool : CollateralPool) (sid c : Nat) (pool' : CollateralPool),
       deposit_collateral pool sid c = .ok pool' →
       pool'.total_collateral = pool.total_collateral) ∧
    (∀ (pool : CollateralPool) (sid prov amt sender : Nat)
       (pool' : CollateralPool) (x : Nat),
       withdraw_collateral pool sid prov amt sender = .ok (pool', x) →
       pool'.total_collateral = pool.total_collateral) ∧
    (∀ pool : CollateralPool, ReachablePool pool →
       get_total_collateral pool = 0) := by
  have hdep : ∀ (pool : CollateralPool) (sid c : Nat) (pool' : CollateralPool),
      deposit_collateral pool sid c = .ok pool' →
      pool'.total_collateral = pool.total_collateral := by
    intro pool sid c pool' h
    unfold deposit_collateral at h
    cases hl : pool.entries.lookup sid with
    | some ex =>
        simp only [hl] at h
        split at h
        · exact Except.noConfusion h
        obtain rfl := Except.ok.inj h
        rfl
    | none =>
        simp only [hl] at h
        obtain rfl := Except.ok.inj h
        rfl
  have hwd : ∀ (pool : CollateralPool) (sid prov amt sender : Nat)
      (pool' : CollateralPool) (x : Nat),
      withdraw_collateral pool sid prov amt sender = .ok (pool', x) →
      pool'.total_collateral = pool.total_collateral := by
    intro pool sid prov amt sender pool' x h
    unfold withdraw_collateral at h
    cases hl : pool.entries.lookup sid with
    | none =>
        simp only [hl] at h
        exact Except.noConfusion h
    | some bal =>
        simp only [hl] at h
        split at h
        · exact Except.noConfusion h
        split at h
        · exact Except.noConfusion h
        have hp := Except.ok.inj h
        injection hp with hpool hx
        subst hpool
        rfl
  refine ⟨hdep, hwd, ?_⟩
  intro pool h
  induction h with
  | create fid => rfl
  | deposit hp hd ih =>
      show _ = 0
      rw [get_total_collateral, hdep _ _ _ _ hd]
      exact ih
  | withdraw hp hw ih =>
      show _ = 0
      rw [get_total_collateral, hwd _ _ _ _ _ _ _ hw]
      exact ih

/-- Claim C10 witness: a pool that received a deposit for service 3 still
reports `get_total_collateral = 0`. -/
theorem total_collateral_invariant_witness :
    get_total_collateral pool1 = 0 :=
  total_collateral_invariant.2.2 pool1
    (@ReachablePool.deposit (create_collateral_pool 8) pool1 3 10000000
      (ReachablePool.create 8) rfl)

/-! ## Claim C7 — counter monotonicity -/

theorem applyOp_query_counters {st st' : MktState} {sub : Subscription}
    {q : OracleQuery} {pay t sender rid : Nat}
    (h : applyOp st (.query sub q pay t sender rid) = .ok st') :
    st'.service.total_queries = st.service.total_queries + 1 ∧
    st'.service.successful_queries = st.service.successful_queries + 1 := by
  unfold applyOp at h
  cases hq : query_oracle_sync st.service sub q pay st.treasury t sender rid with
  | error e =>
      simp only [hq] at h
      exact Except.noConfusion h
  | ok out =>
      simp only [hq] at h
      obtain rfl := Except.ok.inj h
      obtain ⟨hs, -⟩ := query_oracle_sync_ok_spec hq
      constructor <;> simp [hs]

theorem applyOp_nonquery_counters {st st' : MktState} {op : MOp}
    (h : applyOp st op = .ok st') (hq : op.isQuery = false) :
    st'.service.total_queries = st.service.total_queries ∧
    st'.service.successful_queries = st.service.successful_queries := by
  cases op with
  | query sub q pay t sender rid => simp [MOp.isQuery] at hq
  | updatePrice p s =>
      unfold applyOp at h
      cases he : update_price_entry st.service p s with
      | error e =>
          simp only [he] at h
          exact Except.noConfusion h
      | ok sv =>
          simp only [he] at h
          obtain rfl := Except.ok.inj h
          simp [update_price_entry_ok he]
  | setActive a s =>
      unfold applyOp at h
      cases he : set_active_entry st.service a s with
      | error e =>
          simp only [he] at h
          exact Except.noConfusion h
      | ok sv =>
          simp only [he] at h
          obtain rfl := Except.ok.inj h
          simp [set_active_entry_ok he]
  | updateConfigId c s =>
      unfold applyOp at h
      cases he : update_config_id_entry st.service c s with
      | error e =>
          simp only [he] at h
          exact Except.noConfusion h
      | ok sv =>
          simp only [he] at h
          obtain rfl := Except.ok.inj h
          simp [update_config_id_entry_ok he]
  | updateDocUrl u s =>
      unfold applyOp at h
      cases he : update_documentation_url_entry st.service u s with
      | error e =>
          simp only [he] at h
          exact Except.noConfusion h
      | ok sv =>
          simp only [he] at h
          obtain rfl := Except.ok.inj h
          simp [update_documentation_url_entry_ok he]
  | withdrawColl a r s =>
      unfold applyOp at h
      cases he : withdraw_collateral_entry st.service st.pool a r s with
      | error e =>
          simp only [he] at h
          exact Except.noConfusion h
      | ok pr =>
          obtain ⟨pool', x⟩ := pr
          simp only [he] at h
          obtain rfl := Except.ok.inj h
          exact ⟨rfl, rfl⟩

theorem commitOp_counters (st : MktState) (op : MOp) :
    (commitOp st op).service.total_queries
      = st.service.total_queries
        + (if op.isQuery && exceptOk (applyOp st op) then 1 else 0) ∧
    (commitOp st op).service.successful_queries
      = st.service.successful_queries
        + (if op.isQuery && exceptOk (applyOp st op) then 1 else 0) := by
  cases hap : applyOp st op with
  | error e => simp [commitOp, hap, exceptOk]
  | ok st' =>
      cases op with
      | query sub q pay t sender rid =>
          obtain ⟨h1, h2⟩ := applyOp_query_counters hap
          simp [commitOp, hap, exceptOk, MOp.isQuery, h1, h2]
      | updatePrice p s =>
          obtain ⟨h1, h2⟩ := applyOp_nonquery_counters hap rfl
          simp [commitOp, hap, exceptOk, MOp.isQuery, h1, h2]
      | setActive a s =>
          obtain ⟨h1, h2⟩ := applyOp_nonquery_counters hap rfl
          simp [commitOp, hap, exceptOk, MOp.isQuery, h1, h2]
      | updateConfigId c s =>
          obtain ⟨h1, h2⟩ := applyOp_nonquery_counters hap rfl
          simp [commitOp, hap, exceptOk, MOp.isQuery, h1, h2]
      | updateDocUrl u s =>
          obtain ⟨h1, h2⟩ := applyOp_nonquery_counters hap rfl
          simp [commitOp, hap, exceptOk, MOp.isQuery, h1, h2]
      | withdrawColl a r s =>
          obtain ⟨h1, h2⟩ := applyOp_nonquery_counters hap rfl
          simp [commitOp, hap, exceptOk, MOp.isQuery, h1, h2]

/-- Claim C7: a successful settlement increments `total_queries` and
`successful_queries` by exactly 1; every other (non-settlement) operation
that succeeds leaves them unchanged; committed transactions never decrease
them; and over any transaction sequence — successes interleaved with
aborted calls — the counters grow by exactly the number of settlement calls
that succeeded. -/
theorem service_counters_monotone :
    (∀ (st : MktState) (sub : Subscription) (q : OracleQuery)
       (pay t sender rid : Nat) (st' : MktState),
       applyOp st (.query sub q pay t sender rid) = .ok st' →
       st'.service.total_queries = st.service.total_queries + 1 ∧
       st'.service.successful_queries = st.service.successful_queries + 1) ∧
    (∀ (st : MktState) (op : MOp) (st' : MktState),
       applyOp st op = .ok st' → op.isQuery = false →
       st'.service.total_queries = st.service.total_queries ∧
       st'.service.successful_queries = st.service.successful_queries) ∧
    (∀ (st : MktState) (op : MOp),
       st.service.total_queries ≤ (commitOp st op).service.total_queries ∧
       st.service.successful_queries
         ≤ (commitOp st op).service.successful_queries) ∧
    (∀ (st : MktState) (ops : List MOp),
       (runSeq st ops).service.total_queries
         = st.service.total_queries + countQuerySuccess st ops ∧
       (runSeq st ops).service.successful_queries
         = st.service.successful_queries + countQuerySuccess st ops) := by
  refine ⟨fun st sub q pay t sender rid st' h => applyOp_query_counters h,
          fun st op st' h hq => applyOp_nonquery_counters h hq, ?_, ?_⟩
  · intro st op
    obtain ⟨h1, h2⟩ := commitOp_counters st op
    constructor <;> omega
  · intro st ops
    induction ops generalizing st with
    | nil => simp [runSeq, countQuerySuccess]
    | cons op rest ih =>
        obtain ⟨h1, h2⟩ := commitOp_counters st op
        obtain ⟨ih1, ih2⟩ := ih (commitOp st op)
        simp only [runSeq, countQuerySuccess]
        constructor <;> omega

/-- Claim C7 witness: the successful settlement taking `st0` to `st1` bumps
both counters from 0 to 1. -/
theorem service_counters_monotone_witness :
    st1.service.total_queries = st0.service.total_queries + 1 ∧
    st1.service.successful_queries = st0.service.successful_queries + 1 :=
  service_counters_monotone.1 st0 sub0 qry0 1500 5 7 42 st1 rfl

/-! ## Claim C8 — provider gating -/

/-- Claim C8 counterexample: on the already-resolved query `qry0`, a caller
(address 2) different from the provider (address 1) gets `alreadyResolved`,
not `notProvider`: `resolve_query_entry` checks its resolved guard before
the provider check. -/
theorem resolve_gating_counterexample :
    (2 : Nat) ≠ qry0.provider ∧
    qry0.resolved = true ∧
    resolve_query_entry qry0 "r" "h" "u" 2 6 = .error .alreadyResolved ∧
    resolve_query_entry qry0 "r" "h" "u" 2 6 ≠ .error .notProvider := by
  refine ⟨by decide, rfl, rfl, by simp [resolve_query_entry, qry0]⟩

/-- Claim C8 (amended): every provider-gated mutating operation
(`update_price_entry`, `set_active_entry`, `update_config_id_entry`,
`update_documentation_url_entry`, `withdraw_collateral_entry`,
`update_query_data`, and `resolve_query_entry` on a not-yet-resolved query)
fails with `notProvider` when the caller differs from the recorded provider;
`resolve_query_entry` on an already-resolved query fails with
`alreadyResolved` instead, its resolved guard firing first.  In every such
failure the committed resource equals the pre-call resource. -/
theorem provider_gating_amended (service : OracleService) (q : OracleQuery)
    (pool : CollateralPool) (new_price : Nat) (active : Bool)
    (cid durl result result_hash ev : String)
    (amount recipient sender now : Nat) :
    (sender ≠ service.provider →
      update_price_entry service new_price sender = .error .notProvider ∧
      set_active_entry service active sender = .error .notProvider ∧
      update_config_id_entry service cid sender = .error .notProvider ∧
      update_documentation_url_entry service durl sender
        = .error .notProvider ∧
      withdraw_collateral_entry service pool amount recipient sender
        = .error .notProvider ∧
      commitR service (update_price_entry service new_price sender)
        = service ∧
      commitR service (set_active_entry service active sender) = service ∧
      commitR service (update_config_id_entry service cid sender) = service ∧
      commitR service (update_documentation_url_entry service durl sender)
        = service) ∧
    (sender ≠ q.provider →
      update_query_data q result result_hash ev sender now
        = .error .notProvider ∧
      (q.resolved = false →
        resolve_query_entry q result result_hash ev sender now
          = .error .notProvider) ∧
      (q.resolved = true →
        resolve_query_entry q result result_hash ev sender now
          = .error .alreadyResolved) ∧
      commitR q (update_query_data q result result_hash ev sender now) = q ∧
      commitR q (resolve_query_entry q result result_hash ev sender now)
        = q) := by
  constructor
  · intro h
    refine ⟨?_, ?_, ?_, ?_, ?_, ?_, ?_, ?_, ?_⟩ <;>
      simp [update_price_entry, set_active_entry, update_config_id_entry,
            update_documentation_url_entry, withdraw_collateral_entry,
            commitR, h]
  · intro h
    refine ⟨?_, ?_, ?_, ?_, ?_⟩
    · simp [update_query_data, h]
    · intro hr
      simp [resolve_query_entry, h, hr]
    · intro hr
      simp [resolve_query_entry, hr]
    · simp [commitR, update_query_data, h]
    · cases hr : q.resolved with
      | false => simp [commitR, resolve_query_entry, h, hr]
      | true => simp [commitR, resolve_query_entry, hr]

/-- Claim C8 witness: caller 2 (not provider 1) cannot change `svc0`'s
price, and the committed service is unchanged. -/
theorem provider_gating_amended_witness :
    update_price_entry svc0 2000 2 = .error .notProvider ∧
    commitR svc0 (update_price_entry svc0 2000 2) = svc0 := by
  have h := (provider_gating_amended svc0 qry0 pool1 2000 true "c" "u" "r"
      "h" "e" 5 9 2 6).1 (by decide)
  exact ⟨h.1, h.2.2.2.2.2.1⟩

end OracleMarket
